/-
Verification of the equities multi-agent pipeline core:
the workflow risk gate (backend/orchestration/langgraph_workflow.py),
the aggregation engine (backend/orchestration/aggregation_engine.py),
the execution agent / position sizer (backend/agents/execution_agent.py),
and the learning loop (backend/agents/learning_agent.py).

Python floats are embedded as rationals; Python `round(x, n)` is embedded
as decimal round-half-even on rationals; Python `int(x)` is truncation
toward zero; Python `x.get(key, default)` becomes `Option.getD`;
dict iteration order follows the insertion order of the embedded lists.
-/
import Mathlib

namespace Equities

/-- Directional outlook enum (backend/utils/schemas.py, class Outlook). -/
inductive Outlook
  | bearish
  | neutral
  | bullish
  deriving DecidableEq, Repr

/-- Render an outlook the way `Outlook.value` does in the source. -/
def outlookStr : Outlook → String
  | .bearish => "bearish"
  | .neutral => "neutral"
  | .bullish => "bullish"

/-- Python `max(l)` for a non-empty list, with 0 for the empty list: the
source computes `max(risk_data.get("position_risks", {}).values() or [0])`,
so an empty values collection is replaced by `[0]` before taking the max. -/
def listMaxD (l : List ℚ) : ℚ :=
  match l with
  | [] => 0
  | x :: xs => xs.foldl max x

/-- The `specific_predictions` payload read by the risk gate:
an optional `portfolio_risk` entry and the values of the optional
`position_risks` map (langgraph_workflow.py lines 335-337). -/
structure RiskPreds where
  portfolio_risk : Option ℚ
  position_risks : List ℚ
  deriving DecidableEq, Repr

/-- Veto decision of `_run_risk_agent` (lines 336-340):
`portfolio_risk` defaults to 0 when absent, the position-risk max
defaults to 0 when the map is empty, and
`vetoed = portfolio_risk > 0.8 or max_position_risk > 0.9`. -/
def riskVetoed (preds : RiskPreds) : Bool :=
  let pr := preds.portfolio_risk.getD 0
  let mpr := listMaxD preds.position_risks
  decide (pr > 4/5) || decide (mpr > 9/10)

/-- Veto reason string built in `_run_risk_agent` (lines 342-348); the
numeric percent interpolation of the source is abbreviated to the fixed
message prefixes, which is all any claim depends on. -/
def riskVetoReason (preds : RiskPreds) : Option String :=
  if riskVetoed preds then
    let pr := preds.portfolio_risk.getD 0
    let mpr := listMaxD preds.position_risks
    let reasons :=
      (if pr > 4/5 then ["Portfolio risk too high"] else []) ++
      (if mpr > 9/10 then ["Position risk too high"] else [])
    some (String.intercalate "; " reasons)
  else none

/-- Execution-outcome wrapper returned by `RiskAgent.run()` as seen by the
risk phase: `success` flag and the optional forecast payload
(`result.output.forecast.specific_predictions`). -/
structure RiskAgentResult where
  success : Bool
  output : Option RiskPreds
  deriving DecidableEq, Repr

/-- How the risk-producer invocation terminates inside `_run_risk_agent`:
either `agent.run()` returns a result, or the construction or the call
raises and control reaches the `except` block. -/
inductive RiskRun
  | raises (msg : String)
  | returns (result : RiskAgentResult)
  deriving DecidableEq, Repr

/-- The slice of `WorkflowState` read and written by the risk phase. -/
structure RiskPhaseState where
  vetoed : Bool
  veto_reason : Option String
  errors : List String
  current_step : String
  deriving DecidableEq, Repr

/-- The relevant slice of `create_initial_state()`: `vetoed = False`,
`veto_reason = None`, empty `errors`. -/
def initialRiskState : RiskPhaseState :=
  { vetoed := false, veto_reason := none, errors := [], current_step := "start" }

/-- `EquitiesWorkflow._run_risk_agent` (langgraph_workflow.py lines 321-368)
under LangGraph dict-merge semantics: keys absent from the returned dict
keep their prior value.
On a successful result with an output the veto rule fires (lines 333-355);
on an exception the error is appended and `vetoed` is forced false
(lines 356-362); otherwise the fall-through return (lines 364-368) sets
`vetoed = False` and `veto_reason = None` but touches no error entry. -/
def run_risk_agent (prior : RiskPhaseState) (run : RiskRun) : RiskPhaseState :=
  match run with
  | .raises msg =>
      { prior with
        errors := prior.errors ++ ["Risk agent error: " ++ msg]
        current_step := "risk_failed"
        vetoed := false }
  | .returns result =>
      match result.output with
      | some preds =>
          if result.success then
            { prior with
              vetoed := riskVetoed preds
              veto_reason := riskVetoReason preds
              current_step := "risk_complete" }
          else
            { prior with
              vetoed := false
              veto_reason := none
              current_step := "risk_complete" }
      | none =>
          { prior with
            vetoed := false
            veto_reason := none
            current_step := "risk_complete" }

/-- One forecast as the aggregation engine reads it: the outlook and the
confidence of an `AgentOutput.forecast`. -/
structure ForecastLite where
  outlook : Outlook
  confidence : ℚ
  deriving DecidableEq, Repr

/-- The three outlook score buckets of `_calculate_weighted_outlook`
(aggregation_engine.py lines 167-171). -/
structure OutlookScores where
  bearish : ℚ
  neutral : ℚ
  bullish : ℚ
  deriving DecidableEq, Repr

/-- Read one bucket of the score map. -/
def scoreOf (s : OutlookScores) : Outlook → ℚ
  | .bearish => s.bearish
  | .neutral => s.neutral
  | .bullish => s.bullish

/-- Add a weighted score into the bucket of the given outlook
(line 180 of aggregation_engine.py). -/
def addScore (s : OutlookScores) (o : Outlook) (v : ℚ) : OutlookScores :=
  match o with
  | .bearish => { s with bearish := s.bearish + v }
  | .neutral => { s with neutral := s.neutral + v }
  | .bullish => { s with bullish := s.bullish + v }

/-- Accumulation loop of `_calculate_weighted_outlook` (lines 175-181):
for each successful output, `weight = weights.get(agent_id, 1.0)`,
`weighted_score = weight * confidence`, added both to the bucket of the
forecast outlook and to `total_weight`. -/
def rawScores (outputs : List (String × ForecastLite))
    (weights : String → Option ℚ) : OutlookScores × ℚ :=
  outputs.foldl
    (fun acc item =>
      let w := (weights item.1).getD 1
      let ws := w * item.2.confidence
      (addScore acc.1 item.2.outlook ws, acc.2 + ws))
    ({ bearish := 0, neutral := 0, bullish := 0 }, 0)

/-- Normalization step (lines 183-186): each bucket is divided by
`total_weight`, but only when `total_weight > 0`. -/
def normalizeScores (s : OutlookScores) (total : ℚ) : OutlookScores :=
  if total > 0 then
    { bearish := s.bearish / total, neutral := s.neutral / total, bullish := s.bullish / total }
  else s

/-- Winner selection (line 189): Python `max(outlook_scores, key=...)`
iterates the dict in insertion order bearish, neutral, bullish and keeps
the earliest key on ties. -/
def winningOutlook (s : OutlookScores) : Outlook :=
  if s.neutral > s.bearish then
    (if s.bullish > s.neutral then .bullish else .neutral)
  else
    (if s.bullish > s.bearish then .bullish else .bearish)

/-- One conflict record of `_calculate_weighted_outlook` (lines 203-209). -/
structure ConflictEntry where
  bearish_agents : List String
  bullish_agents : List String
  resolution : String
  deriving DecidableEq, Repr

/-- Conflict detection (lines 192-209): when more than one distinct
outlook is present and both a bearish and a bullish agent exist, exactly
one disagreement entry is recorded. -/
def detectConflicts (outputs : List (String × ForecastLite))
    (winner : Outlook) : List ConflictEntry :=
  let hasBe := outputs.any (fun p => p.2.outlook = .bearish)
  let hasNe := outputs.any (fun p => p.2.outlook = .neutral)
  let hasBu := outputs.any (fun p => p.2.outlook = .bullish)
  let present : ℕ :=
    (if hasBe then 1 else 0) + (if hasNe then 1 else 0) + (if hasBu then 1 else 0)
  if present > 1 then
    let bearishAgents := (outputs.filter (fun p => p.2.outlook = .bearish)).map Prod.fst
    let bullishAgents := (outputs.filter (fun p => p.2.outlook = .bullish)).map Prod.fst
    if ¬ bearishAgents.isEmpty ∧ ¬ bullishAgents.isEmpty then
      [{ bearish_agents := bearishAgents,
         bullish_agents := bullishAgents,
         resolution := "Weighted average favors " ++ outlookStr winner }]
    else []
  else []

/-- `AggregationEngine._calculate_weighted_outlook` (lines 156-211):
weighted bucket accumulation, normalization, winner selection, reported
confidence equal to the winning bucket score, and conflict detection. -/
def calculate_weighted_outlook (outputs : List (String × ForecastLite))
    (weights : String → Option ℚ) : Outlook × ℚ × List ConflictEntry :=
  let raw := rawScores outputs weights
  let s := normalizeScores raw.1 raw.2
  let winner := winningOutlook s
  (winner, scoreOf s winner, detectConflicts outputs winner)

/-- Execution-outcome wrapper consumed by `AggregationEngine.aggregate`:
`success` and the optional forecast of an `AgentResult`. -/
structure AgentResultAgg where
  success : Bool
  output : Option ForecastLite
  deriving DecidableEq, Repr

/-- The slice of `RiskAssessment` read by `aggregate` (lines 95-97). -/
structure RiskAssessmentLite where
  approved : Bool
  veto_reason : Option String
  deriving DecidableEq, Repr

/-- The fields of `AggregatedInsightOutput` the claims are about. -/
structure InsightOut where
  overall_outlook : Outlook
  confidence : ℚ
  conflicts : List ConflictEntry
  resolution_reasoning : String
  final_recommendations : List String
  vetoed : Bool
  veto_reason : Option String
  deriving DecidableEq, Repr

/-- `AggregationEngine._empty_insight` (lines 339-350). -/
def empty_insight (reason : String) : InsightOut :=
  { overall_outlook := .neutral, confidence := 0, conflicts := [],
    resolution_reasoning := reason, final_recommendations := [],
    vetoed := false, veto_reason := none }

/-- `AggregationEngine.aggregate` (lines 47-126) with its external
collaborators passed in: the weight store is a map, and the synthesis
call is `some (reasoning, recommendations)` on success and `none` when it
raised, in which case the except block of `_synthesize_with_claude`
(lines 270-276) degrades to a failure reasoning and no recommendations.
Outputs are filtered to `result.success and result.output is not None`
(lines 69-73); an empty valid set short-circuits to `_empty_insight`
(lines 75-77); the veto flag is copied from an unapproved risk
assessment (lines 93-97). -/
def aggregate (agent_outputs : List (String × AgentResultAgg))
    (weights : String → Option ℚ)
    (synthesis : Option (String × List String))
    (risk_assessment : Option RiskAssessmentLite) : InsightOut :=
  let valid := agent_outputs.filterMap
    (fun p => if p.2.success then p.2.output.map (fun f => (p.1, f)) else none)
  if valid.isEmpty then
    empty_insight "No valid agent outputs available"
  else
    let r := calculate_weighted_outlook valid weights
    let syn := match synthesis with
      | some s => s
      | none => ("Synthesis failed: upstream error", [])
    let veto : Bool × Option String := match risk_assessment with
      | some ra => if ¬ ra.approved then (true, ra.veto_reason) else (false, none)
      | none => (false, none)
    { overall_outlook := r.1, confidence := r.2.1, conflicts := r.2.2,
      resolution_reasoning := syn.1, final_recommendations := syn.2,
      vetoed := veto.1, veto_reason := veto.2 }

theorem foldl_max_gt (c : ℚ) (l : List ℚ) (a : ℚ) :
    c < l.foldl max a ↔ c < a ∨ ∃ r ∈ l, c < r := by
  induction l generalizing a with
  | nil => simp
  | cons x xs ih =>
      simp only [List.foldl_cons, ih, lt_max_iff, List.mem_cons]
      constructor
      · rintro ((h | h) | ⟨r, hr, hcr⟩)
        · exact Or.inl h
        · exact Or.inr ⟨x, Or.inl rfl, h⟩
        · exact Or.inr ⟨r, Or.inr hr, hcr⟩
      · rintro (h | ⟨r, rfl | hr, hcr⟩)
        · exact Or.inl (Or.inl h)
        · exact Or.inl (Or.inr hcr)
        · exact Or.inr ⟨r, hr, hcr⟩

theorem listMaxD_gt (c : ℚ) (l : List ℚ) (hc : 0 ≤ c) :
    c < listMaxD l ↔ ∃ r ∈ l, c < r := by
  match l with
  | [] => simp [listMaxD, not_lt.mpr hc]
  | x :: xs =>
      simp only [listMaxD, foldl_max_gt, List.mem_cons]
      constructor
      · rintro (h | ⟨r, hr, hcr⟩)
        · exact ⟨x, Or.inl rfl, h⟩
        · exact ⟨r, Or.inr hr, hcr⟩
      · rintro ⟨r, rfl | hr, hcr⟩
        · exact Or.inl hcr
        · exact Or.inr ⟨r, hr, hcr⟩

/-- C1: for a successful risk-gate producer result carrying specific
predictions, the risk phase vetoes exactly when the reported portfolio
risk exceeds 0.8 (absent treated as 0) or some position risk exceeds 0.9
(empty map treated as max 0); and a report of portfolio_risk = 0.85
yields vetoed = true. -/
theorem risk_gate_veto_rule
    (prior : RiskPhaseState) (result : RiskAgentResult) (preds : RiskPreds)
    (hs : result.success = true) (ho : result.output = some preds) :
    ((run_risk_agent prior (.returns result)).vetoed = true ↔
      (preds.portfolio_risk.getD 0 > 4/5 ∨ ∃ r ∈ preds.position_risks, r > 9/10)) ∧
    (preds.portfolio_risk = some (17/20) →
      (run_risk_agent prior (.returns result)).vetoed = true) := by
  have hrun : (run_risk_agent prior (.returns result)).vetoed = riskVetoed preds := by
    simp [run_risk_agent, ho, hs]
  constructor
  · rw [hrun]
    simp only [riskVetoed, Bool.or_eq_true, decide_eq_true_eq, gt_iff_lt]
    rw [listMaxD_gt (9/10) preds.position_risks (by norm_num)]
  · intro hpr
    rw [hrun]
    simp only [riskVetoed, hpr, Option.getD_some, Bool.or_eq_true, decide_eq_true_eq]
    left
    norm_num

/-- Witness for C1: the veto rule applied to a concrete successful result
reporting portfolio_risk = 0.85 and no position risks. -/
theorem risk_gate_veto_rule_witness :
    (run_risk_agent initialRiskState
      (.returns { success := true,
                  output := some { portfolio_risk := some (17/20), position_risks := [] } })).vetoed
      = true :=
  (risk_gate_veto_rule initialRiskState
      { success := true, output := some { portfolio_risk := some (17/20), position_risks := [] } }
      { portfolio_risk := some (17/20), position_risks := [] } rfl rfl).2 rfl

/-- C3: a risk producer that fails by returning an unsuccessful result
(the normal failure mode, since `BaseAgent.run` catches every exception
and returns `AgentResult(success=False, ...)`) reaches the fall-through
return of `_run_risk_agent`, which sets `vetoed = False` but records no
error: starting from the initial state the errors list stays empty,
contradicting the spec requirement that the failure be recorded. -/
theorem risk_gate_failure_drops_error :
    (run_risk_agent initialRiskState
        (.returns { success := false, output := none })).vetoed = false ∧
    (run_risk_agent initialRiskState
        (.returns { success := false, output := none })).errors = [] ∧
    (run_risk_agent initialRiskState (.raises "boom")).vetoed = false ∧
    (run_risk_agent initialRiskState (.raises "boom")).errors ≠ [] := by
  refine ⟨rfl, rfl, rfl, ?_⟩
  simp [run_risk_agent, initialRiskState]

/-- Trade action enum (backend/utils/alpha_schemas.py, TradeAction). -/
inductive TradeAction
  | buy
  | sell
  | hold
  | short
  | cover
  deriving DecidableEq, Repr

/-- Order type enum (alpha_schemas.py, OrderType). -/
inductive OrderType
  | market
  | limit
  | stop
  | stop_limit
  deriving DecidableEq, Repr

/-- Signal strength enum (alpha_schemas.py, SignalStrength). -/
inductive SignalStrength
  | strong_buy
  | buy
  | weak_buy
  | neutral
  | weak_sell
  | sell
  | strong_sell
  deriving DecidableEq, Repr

/-- Kelly sizing record (alpha_schemas.py, KellyPosition). -/
structure KellyPosition where
  symbol : String
  kelly_fraction : ℚ
  recommended_fraction : ℚ
  position_size_dollars : ℚ
  position_size_shares : ℤ
  win_probability : ℚ
  win_loss_ratio : ℚ
  edge : ℚ
  deriving DecidableEq, Repr

/-- Constructor parameters of `ExecutionAgent` (execution_agent.py lines
50-61) with their source defaults. -/
structure ExecConfig where
  portfolio_value : ℚ := 100000
  max_position_pct : ℚ := 1/4
  kelly_fraction : ℚ := 1/2
  deriving DecidableEq, Repr

/-- Python `int(x)`: truncation toward zero. -/
def pyInt (x : ℚ) : ℤ :=
  if 0 ≤ x then ⌊x⌋ else ⌈x⌉

/-- `ExecutionAgent.calculate_kelly_position` (execution_agent.py lines
139-190): `q = 1 - p`; `b = expected_win_pct / expected_loss_pct` when
`expected_loss_pct > 0` else 1; full Kelly `(p*b - q)/b` when `b > 0`
else 0, clamped to the unit interval; the recommended fraction is the
safety-scaled Kelly capped at `max_position_pct`; dollar size is the
portfolio value times the recommended fraction; share size truncates
dollars over price, 0 unless the price is positive; edge is
`p*expected_win_pct - q*expected_loss_pct`. -/
def calculate_kelly_position (cfg : ExecConfig) (symbol : String)
    (win_probability expected_win_pct expected_loss_pct current_price : ℚ) :
    KellyPosition :=
  let p := win_probability
  let q := 1 - p
  let b := if expected_loss_pct > 0 then expected_win_pct / expected_loss_pct else 1
  let full_kelly := if b > 0 then (p * b - q) / b else 0
  let full_kelly := max 0 (min 1 full_kelly)
  let recommended := full_kelly * cfg.kelly_fraction
  let recommended := min recommended cfg.max_position_pct
  let position_dollars := cfg.portfolio_value * recommended
  let position_shares := if current_price > 0 then pyInt (position_dollars / current_price) else 0
  let edge := p * expected_win_pct - q * expected_loss_pct
  { symbol := symbol, kelly_fraction := full_kelly, recommended_fraction := recommended,
    position_size_dollars := position_dollars, position_size_shares := position_shares,
    win_probability := p, win_loss_ratio := b, edge := edge }

/-- `ExecutionAgent.outlook_to_signal_strength` (lines 192-212). -/
def outlook_to_signal_strength (outlook : Outlook) (confidence : ℚ) : SignalStrength :=
  match outlook with
  | .bullish =>
      if confidence ≥ 4/5 then .strong_buy
      else if confidence ≥ 3/5 then .buy
      else .weak_buy
  | .bearish =>
      if confidence ≥ 4/5 then .strong_sell
      else if confidence ≥ 3/5 then .sell
      else .weak_sell
  | .neutral => .neutral

/-- Decimal rounding to half even, the embedding of Python `round(x, n)`
for the idealized decimal values handled here. -/
def roundHalfEven (x : ℚ) : ℤ :=
  let f := ⌊x⌋
  let r := x - f
  if r < 1/2 then f
  else if r > 1/2 then f + 1
  else if f % 2 = 0 then f else f + 1

/-- Round to `n` decimal places, half to even. -/
def roundDec (n : ℕ) (x : ℚ) : ℚ :=
  (roundHalfEven (x * 10 ^ n) : ℚ) / 10 ^ n

/-- The cached aggregated insight the execution agent reads
(`aggregated:latest`: the JSON written at langgraph_workflow.py lines
410-420 carries overall_outlook, confidence, resolution_reasoning,
final_recommendations and vetoed). -/
structure AggCache where
  overall_outlook : Outlook
  confidence : ℚ
  resolution_reasoning : String
  final_recommendations : List String
  vetoed : Bool
  deriving DecidableEq, Repr

/-- The slices of the data dict built by `ExecutionAgent.fetch_data` that
signal and order generation read: the optional cached insight,
`market_prices[sym]["price"]`, `volatility[sym]["daily_vol"]`, and
`historical_accuracy[sym]["win_rate"]`. -/
structure ExecData where
  aggregated_insight : Option AggCache
  price : String → Option ℚ
  daily_vol : String → Option ℚ
  win_rate : String → Option ℚ

/-- Trade signal record (alpha_schemas.py, TradeSignal). -/
structure TradeSignal where
  symbol : String
  action : TradeAction
  strength : SignalStrength
  confidence : ℚ
  target_price : Option ℚ := none
  stop_loss : Option ℚ := none
  take_profit : Option ℚ := none
  timeframe : String := "1week"
  reasoning : String
  deriving DecidableEq, Repr

/-- `ExecutionAgent.generate_trade_signals` (execution_agent.py lines
214-279): nothing without a cached insight; nothing when the consensus
confidence is below 0.6; a primary SPY signal for a bullish or bearish
outlook with volatility-scaled targets, plus a correlated QQQ signal when
confidence reaches 0.7; the vetoed flag of the insight is never read. -/
def generate_trade_signals (data : ExecData) : List TradeSignal :=
  match data.aggregated_insight with
  | none => []
  | some aggregated =>
    let outlook := aggregated.overall_outlook
    let confidence := aggregated.confidence
    if confidence < 3/5 then []
    else
      match outlook with
      | .neutral => []
      | _ =>
        let action := if outlook = .bullish then TradeAction.buy else TradeAction.short
        let strength := outlook_to_signal_strength outlook confidence
        let spy_price := (data.price "SPY").getD 475
        let vol := (data.daily_vol "SPY").getD (1/100)
        let atr_multiplier : ℚ := 2
        let target_price :=
          if outlook = .bullish then spy_price * (1 + vol * atr_multiplier * 5)
          else spy_price * (1 - vol * atr_multiplier * 5)
        let stop_loss :=
          if outlook = .bullish then spy_price * (1 - vol * atr_multiplier * 2)
          else spy_price * (1 + vol * atr_multiplier * 2)
        let primary : TradeSignal :=
          { symbol := "SPY", action := action, strength := strength,
            confidence := confidence,
            target_price := some (roundDec 2 target_price),
            stop_loss := some (roundDec 2 stop_loss),
            take_profit := some (roundDec 2 target_price),
            timeframe := "1week",
            reasoning := aggregated.resolution_reasoning }
        if confidence ≥ 7/10 then
          let qqq_price := (data.price "QQQ").getD 400
          [primary,
            { symbol := "QQQ", action := action, strength := strength,
              confidence := confidence * (9/10),
              target_price :=
                some (roundDec 2 (qqq_price * (if outlook = .bullish then 21/20 else 19/20))),
              stop_loss :=
                some (roundDec 2 (qqq_price * (if outlook = .bullish then 97/100 else 103/100))),
              take_profit := none,
              timeframe := "1week",
              reasoning := "Correlated position for tech sector exposure" }]
        else [primary]

/-- Python truthiness of an optional float: None and 0.0 are falsy. -/
def optTruthy (x : Option ℚ) : Bool :=
  match x with
  | none => false
  | some v => decide (v ≠ 0)

/-- Execution order record (alpha_schemas.py, ExecutionOrder). -/
structure ExecutionOrder where
  symbol : String
  action : TradeAction
  quantity : ℤ
  order_type : OrderType
  limit_price : Option ℚ
  stop_price : Option ℚ
  time_in_force : String := "day"
  kelly_sizing : KellyPosition
  signal : TradeSignal
  requires_approval : Bool
  approval_reason : Option String
  deriving DecidableEq, Repr

/-- `ExecutionAgent.generate_execution_orders` (execution_agent.py lines
281-333): one order per signal, Kelly-sized from the historical win rate
(falling back to signal confidence), with approval required for a
recommended fraction above 0.15, an edge below 0.02, or an extreme
signal tier, and a limit order whenever signal confidence is below
0.8. -/
def generate_execution_orders (signals : List TradeSignal) (data : ExecData)
    (cfg : ExecConfig) : List ExecutionOrder :=
  signals.map (fun signal =>
    let win_prob := (data.win_rate signal.symbol).getD signal.confidence
    let price := (data.price signal.symbol).getD 100
    let expected_win :=
      if optTruthy signal.target_price then |signal.target_price.getD 0 - price| / price
      else 1/20
    let expected_loss :=
      if optTruthy signal.stop_loss then |price - signal.stop_loss.getD 0| / price
      else 3/100
    let kelly := calculate_kelly_position cfg signal.symbol win_prob
      expected_win expected_loss price
    let requires_approval :=
      decide (kelly.recommended_fraction > 3/20) ||
      decide (kelly.edge < 1/50) ||
      decide (signal.strength = .strong_buy ∨ signal.strength = .strong_sell)
    { symbol := signal.symbol, action := signal.action,
      quantity := kelly.position_size_shares,
      order_type := if signal.confidence < 4/5 then OrderType.limit else OrderType.market,
      limit_price := if signal.confidence < 4/5 then some price else none,
      stop_price := signal.stop_loss,
      time_in_force := "day",
      kelly_sizing := kelly, signal := signal,
      requires_approval := requires_approval,
      approval_reason :=
        if requires_approval then some "Large position size or extreme signal" else none })

/-- The per-producer statistics consumed by the weight update, as set by
`LearningAgent._calculate_agent_stats` for every producer that reaches
the minimum sample count. -/
structure AgentStats where
  accuracy : ℚ
  brier_score : ℚ
  sharpe_contribution : ℚ
  deriving DecidableEq, Repr

/-- The combined adjustment of `calculate_weight_adjustments`
(learning_agent.py lines 360-370): accuracy deviation from 0.5 weighted
0.4, Brier deviation from 0.5 weighted 0.3, sharpe over 10 weighted 0.3,
all scaled by the learning rate. -/
def weightAdjustment (rate : ℚ) (stats : AgentStats) : ℚ :=
  ((stats.accuracy - 1/2) * (2/5) +
   (1/2 - stats.brier_score) * (3/10) +
   (stats.sharpe_contribution / 10) * (3/10)) * rate

/-- The per-producer body of `calculate_weight_adjustments` (lines
357-376): multiplicative update, clamp to the interval from 0.1 to 2.0,
then `round(new_weight, 3)`. -/
def newWeight (rate current : ℚ) (stats : AgentStats) : ℚ :=
  roundDec 3 (max (1/10) (min 2 (current * (1 + weightAdjustment rate stats))))

/-- `LearningAgent.calculate_weight_adjustments` (lines 350-378) over the
producers present in the stats map; a producer missing from
`current_weights` defaults to weight 1.0. -/
def calculate_weight_adjustments (rate : ℚ)
    (agent_stats : List (String × AgentStats))
    (current_weights : String → Option ℚ) : List (String × ℚ) :=
  agent_stats.map (fun p => (p.1, newWeight rate ((current_weights p.1).getD 1) p.2))

/-- The attribution fields of `PredictionOutcome` the claims are about
(alpha_schemas.py, PredictionOutcome). -/
structure OutcomeRec where
  actual_return : ℚ
  actual_direction : Outlook
  was_correct : Bool
  attribution_score : ℚ
  deriving DecidableEq, Repr

/-- The per-forecast body of `LearningAgent._attribute_outcomes`
(learning_agent.py lines 177-237), with the date lookup abstracted to the
list of daily returns found inside the forward window: the cumulative
return is their sum; a zero cumulative return produces no outcome; the
actual direction uses the 0.005 thresholds; correctness holds for a
bullish call with positive return, a bearish call with negative return,
or a neutral call with absolute return below 0.02; the attribution score
is confidence times absolute return times 100, negated when wrong. -/
def attributeOutcome (outlook : Outlook) (confidence : ℚ)
    (forwardReturns : List ℚ) : Option OutcomeRec :=
  let cumulative_return := forwardReturns.foldl (· + ·) 0
  if cumulative_return ≠ 0 then
    let actual_return := cumulative_return
    let actual_direction :=
      if actual_return > 1/200 then Outlook.bullish
      else if actual_return < -(1/200) then Outlook.bearish
      else Outlook.neutral
    let was_correct :=
      decide (outlook = .bullish ∧ actual_return > 0) ||
      decide (outlook = .bearish ∧ actual_return < 0) ||
      decide (outlook = .neutral ∧ |actual_return| < 1/50)
    let attribution :=
      if was_correct then confidence * |actual_return| * 100
      else -(confidence * |actual_return| * 100)
    some { actual_return := actual_return, actual_direction := actual_direction,
           was_correct := was_correct, attribution_score := attribution }
  else none

theorem rawScores_foldl_total (outputs : List (String × ForecastLite))
    (weights : String → Option ℚ) (s0 : OutlookScores) (t0 : ℚ)
    (h : t0 = s0.bearish + s0.neutral + s0.bullish) :
    (outputs.foldl
      (fun acc item =>
        let w := (weights item.1).getD 1
        let ws := w * item.2.confidence
        (addScore acc.1 item.2.outlook ws, acc.2 + ws)) (s0, t0)).2 =
    (outputs.foldl
      (fun acc item =>
        let w := (weights item.1).getD 1
        let ws := w * item.2.confidence
        (addScore acc.1 item.2.outlook ws, acc.2 + ws)) (s0, t0)).1.bearish +
    (outputs.foldl
      (fun acc item =>
        let w := (weights item.1).getD 1
        let ws := w * item.2.confidence
        (addScore acc.1 item.2.outlook ws, acc.2 + ws)) (s0, t0)).1.neutral +
    (outputs.foldl
      (fun acc item =>
        let w := (weights item.1).getD 1
        let ws := w * item.2.confidence
        (addScore acc.1 item.2.outlook ws, acc.2 + ws)) (s0, t0)).1.bullish := by
  induction outputs generalizing s0 t0 with
  | nil => simpa using h
  | cons x xs ih =>
      simp only [List.foldl_cons]
      apply ih
      cases hx : x.2.outlook <;> simp [addScore, hx] <;> linarith

/-- The running total accumulated by `_calculate_weighted_outlook` equals
the sum of the three bucket scores. -/
theorem rawScores_total (outputs : List (String × ForecastLite))
    (weights : String → Option ℚ) :
    (rawScores outputs weights).2 =
      (rawScores outputs weights).1.bearish + (rawScores outputs weights).1.neutral +
      (rawScores outputs weights).1.bullish := by
  unfold rawScores
  exact rawScores_foldl_total outputs weights _ 0 (by norm_num)

theorem scoreOf_addScore (s : OutlookScores) (o o' : Outlook) (v : ℚ) :
    scoreOf (addScore s o v) o' = scoreOf s o' + (if o = o' then v else 0) := by
  cases o <;> cases o' <;> simp [addScore, scoreOf]

theorem rawScores_foldl_bucket (outputs : List (String × ForecastLite))
    (weights : String → Option ℚ) (s0 : OutlookScores) (t0 : ℚ) (o : Outlook) :
    scoreOf (outputs.foldl
      (fun acc item =>
        let w := (weights item.1).getD 1
        let ws := w * item.2.confidence
        (addScore acc.1 item.2.outlook ws, acc.2 + ws)) (s0, t0)).1 o =
    scoreOf s0 o + ((outputs.filter (fun p => p.2.outlook = o)).map
      (fun p => ((weights p.1).getD 1) * p.2.confidence)).sum := by
  induction outputs generalizing s0 t0 with
  | nil => simp
  | cons x xs ih =>
      simp only [List.foldl_cons, List.filter_cons]
      rw [ih]
      rw [scoreOf_addScore]
      by_cases hx : x.2.outlook = o <;> simp [hx] <;> ring

/-- Each bucket accumulated by `_calculate_weighted_outlook` is the sum
of weight times confidence over the producers whose forecast falls in
that bucket, with absent weights defaulting to 1. -/
theorem rawScores_bucket (outputs : List (String × ForecastLite))
    (weights : String → Option ℚ) (o : Outlook) :
    scoreOf (rawScores outputs weights).1 o =
      ((outputs.filter (fun p => p.2.outlook = o)).map
        (fun p => ((weights p.1).getD 1) * p.2.confidence)).sum := by
  unfold rawScores
  rw [rawScores_foldl_bucket]
  cases o <;> simp [scoreOf]

/-- The selected outlook has the largest score in its bucket. -/
theorem winningOutlook_max (s : OutlookScores) (o : Outlook) :
    scoreOf s o ≤ scoreOf s (winningOutlook s) := by
  unfold winningOutlook
  split_ifs <;> cases o <;> simp_all [scoreOf] <;> linarith

/-- C6 (amended): whenever the total weighted score is positive, the
three normalized outlook-bucket scores sum exactly to 1. -/
theorem normalized_scores_sum_to_one (outputs : List (String × ForecastLite))
    (weights : String → Option ℚ)
    (htotal : 0 < (rawScores outputs weights).2) :
    (normalizeScores (rawScores outputs weights).1 (rawScores outputs weights).2).bearish +
    (normalizeScores (rawScores outputs weights).1 (rawScores outputs weights).2).neutral +
    (normalizeScores (rawScores outputs weights).1 (rawScores outputs weights).2).bullish = 1 := by
  have ht := rawScores_total outputs weights
  simp only [normalizeScores, gt_iff_lt, htotal, if_pos]
  rw [div_add_div_same, div_add_div_same, ← ht]
  exact div_self (ne_of_gt htotal)

/-- Witness for C6 (amended) at one bullish producer of confidence 0.8
and default weight. -/
theorem normalized_scores_sum_to_one_witness :
    (0 : ℚ) < (rawScores [("technical", ⟨Outlook.bullish, 4/5⟩)] (fun _ => none)).2 ∧
    (normalizeScores (rawScores [("technical", ⟨Outlook.bullish, 4/5⟩)] (fun _ => none)).1
        (rawScores [("technical", ⟨Outlook.bullish, 4/5⟩)] (fun _ => none)).2).bearish +
    (normalizeScores (rawScores [("technical", ⟨Outlook.bullish, 4/5⟩)] (fun _ => none)).1
        (rawScores [("technical", ⟨Outlook.bullish, 4/5⟩)] (fun _ => none)).2).neutral +
    (normalizeScores (rawScores [("technical", ⟨Outlook.bullish, 4/5⟩)] (fun _ => none)).1
        (rawScores [("technical", ⟨Outlook.bullish, 4/5⟩)] (fun _ => none)).2).bullish = 1 :=
  ⟨by norm_num [rawScores, addScore],
   normalized_scores_sum_to_one [("technical", ⟨Outlook.bullish, 4/5⟩)] (fun _ => none)
     (by norm_num [rawScores, addScore])⟩

/-- C6 counterexample: one successful producer with confidence 0 (allowed
by confidence in the interval from 0 to 1) under positive weight 1 gives
total weighted score 0, the normalization step is skipped, and the bucket
scores sum to 0, not 1. -/
theorem normalized_scores_zero_confidence_not_one :
    (normalizeScores (rawScores [("sentiment", ⟨Outlook.neutral, 0⟩)] (fun _ => some 1)).1
        (rawScores [("sentiment", ⟨Outlook.neutral, 0⟩)] (fun _ => some 1)).2).bearish +
    (normalizeScores (rawScores [("sentiment", ⟨Outlook.neutral, 0⟩)] (fun _ => some 1)).1
        (rawScores [("sentiment", ⟨Outlook.neutral, 0⟩)] (fun _ => some 1)).2).neutral +
    (normalizeScores (rawScores [("sentiment", ⟨Outlook.neutral, 0⟩)] (fun _ => some 1)).1
        (rawScores [("sentiment", ⟨Outlook.neutral, 0⟩)] (fun _ => some 1)).2).bullish ≠ 1 := by
  norm_num [rawScores, addScore, normalizeScores]

/-- C5: with a positive total weighted score, the aggregation engine
reports the bucket with the largest normalized score as the winning
outlook and that bucket normalized share as the confidence; and the
scenario of A(bullish, 0.8, weight 1) against B(bearish, 0.6, weight 1)
yields outlook bullish, confidence 4/7 (about 0.571) and exactly one
conflict entry. -/
theorem weighted_consensus_rule (outputs : List (String × ForecastLite))
    (weights : String → Option ℚ)
    (htotal : 0 < (rawScores outputs weights).2) :
    (∀ o : Outlook, scoreOf (rawScores outputs weights).1 o =
        ((outputs.filter (fun p => p.2.outlook = o)).map
          (fun p => ((weights p.1).getD 1) * p.2.confidence)).sum) ∧
    (∀ o : Outlook,
        scoreOf (normalizeScores (rawScores outputs weights).1 (rawScores outputs weights).2) o ≤
        scoreOf (normalizeScores (rawScores outputs weights).1 (rawScores outputs weights).2)
          (calculate_weighted_outlook outputs weights).1) ∧
    (calculate_weighted_outlook outputs weights).2.1 =
      scoreOf (normalizeScores (rawScores outputs weights).1 (rawScores outputs weights).2)
        (calculate_weighted_outlook outputs weights).1 ∧
    calculate_weighted_outlook
        [("A", ⟨Outlook.bullish, 4/5⟩), ("B", ⟨Outlook.bearish, 3/5⟩)] (fun _ => some 1) =
      (Outlook.bullish, 4/7,
        [{ bearish_agents := ["B"], bullish_agents := ["A"],
           resolution := "Weighted average favors bullish" }]) := by
  refine ⟨fun o => rawScores_bucket outputs weights o,
    fun o => winningOutlook_max _ o, rfl, ?_⟩
  norm_num [calculate_weighted_outlook, rawScores, addScore, normalizeScores,
    winningOutlook, scoreOf, detectConflicts, outlookStr, Prod.ext_iff]
  rfl

/-- Witness for C5 at the two-producer scenario from the spec. -/
theorem weighted_consensus_rule_witness :
    (0 : ℚ) < (rawScores [("A", ⟨Outlook.bullish, 4/5⟩), ("B", ⟨Outlook.bearish, 3/5⟩)]
        (fun _ => some 1)).2 ∧
    (calculate_weighted_outlook [("A", ⟨Outlook.bullish, 4/5⟩), ("B", ⟨Outlook.bearish, 3/5⟩)]
        (fun _ => some 1)).2.1 =
      scoreOf
        (normalizeScores
          (rawScores [("A", ⟨Outlook.bullish, 4/5⟩), ("B", ⟨Outlook.bearish, 3/5⟩)]
            (fun _ => some 1)).1
          (rawScores [("A", ⟨Outlook.bullish, 4/5⟩), ("B", ⟨Outlook.bearish, 3/5⟩)]
            (fun _ => some 1)).2)
        (calculate_weighted_outlook [("A", ⟨Outlook.bullish, 4/5⟩), ("B", ⟨Outlook.bearish, 3/5⟩)]
          (fun _ => some 1)).1 :=
  ⟨by norm_num [rawScores, addScore],
   (weighted_consensus_rule [("A", ⟨Outlook.bullish, 4/5⟩), ("B", ⟨Outlook.bearish, 3/5⟩)]
      (fun _ => some 1) (by norm_num [rawScores, addScore])).2.2.1⟩

/-- C9: when no producer succeeded, the aggregation engine returns a
neutral, zero-confidence insight with no conflicts and a non-empty
explanatory reasoning string, regardless of weights, synthesis outcome
and risk assessment. -/
theorem empty_producers_neutral_insight (agent_outputs : List (String × AgentResultAgg))
    (weights : String → Option ℚ)
    (synthesis : Option (String × List String))
    (risk_assessment : Option RiskAssessmentLite)
    (h : ∀ p ∈ agent_outputs, p.2.success = true → p.2.output = none) :
    (aggregate agent_outputs weights synthesis risk_assessment).overall_outlook =
        Outlook.neutral ∧
    (aggregate agent_outputs weights synthesis risk_assessment).confidence = 0 ∧
    (aggregate agent_outputs weights synthesis risk_assessment).conflicts = [] ∧
    (aggregate agent_outputs weights synthesis risk_assessment).resolution_reasoning ≠ "" := by
  have hvalid : agent_outputs.filterMap
      (fun p => if p.2.success then p.2.output.map (fun f => (p.1, f)) else none) =
      ([] : List (String × ForecastLite)) := by
    apply List.filterMap_eq_nil_iff.mpr
    intro p hp
    cases hs : p.2.success with
    | false => simp [hs]
    | true => simp [hs, h p hp hs]
  unfold aggregate
  rw [hvalid]
  refine ⟨rfl, rfl, rfl, ?_⟩
  simp [empty_insight]

/-- Witness for C9: a single failed producer result. -/
theorem empty_producers_neutral_insight_witness :
    (aggregate [("macro_economics", { success := false, output := none })]
        (fun _ => none) none none).overall_outlook = Outlook.neutral ∧
    (aggregate [("macro_economics", { success := false, output := none })]
        (fun _ => none) none none).confidence = 0 ∧
    (aggregate [("macro_economics", { success := false, output := none })]
        (fun _ => none) none none).conflicts = [] ∧
    (aggregate [("macro_economics", { success := false, output := none })]
        (fun _ => none) none none).resolution_reasoning ≠ "" :=
  empty_producers_neutral_insight [("macro_economics", { success := false, output := none })]
    (fun _ => none) none none
    (by intro p hp hs; simp only [List.mem_singleton] at hp; rw [hp] at hs; cases hs)

theorem kelly_b_eq (w l : ℚ) (hl : 0 ≤ l) :
    (if l > 0 then w / l else 1) = (if l = 0 then 1 else w / l) := by
  rcases hl.eq_or_lt with h | h
  · simp [← h]
  · simp [h, h.ne']

theorem kelly_fk_eq (p b : ℚ) (hb : 0 ≤ b) :
    (if b > 0 then (p * b - (1 - p)) / b else 0) = (p * b - (1 - p)) / b := by
  rcases hb.eq_or_lt with h | h
  · simp [← h]
  · simp [h]

theorem pyInt_nonneg_eq_floor (x : ℚ) (hx : 0 ≤ x) : pyInt x = ⌊x⌋ := by
  simp [pyInt, hx]

/-- C4: the Kelly sizing function realizes exactly the spec formulas —
win/loss ratio with the zero-loss fallback, clamped full Kelly, safety
fraction then cap, dollar and floored share sizes, and the edge — and the
instance p = 0.6, win 0.05, loss 0.03 under default config gives full
Kelly 9/25 = 0.36 and applied fraction 9/50 = 0.18, untouched by the 0.25
cap. -/
theorem kelly_position_formula (cfg : ExecConfig) (symbol : String)
    (p w l price : ℚ)
    (hp0 : 0 ≤ p) (hp1 : p ≤ 1) (hw : 0 ≤ w) (hl : 0 ≤ l)
    (hkf : 0 ≤ cfg.kelly_fraction) (hmax : 0 ≤ cfg.max_position_pct)
    (hpv : 0 ≤ cfg.portfolio_value) :
    (calculate_kelly_position cfg symbol p w l price).win_loss_ratio =
      (if l = 0 then 1 else w / l) ∧
    (calculate_kelly_position cfg symbol p w l price).kelly_fraction =
      max 0 (min 1 ((p * (if l = 0 then 1 else w / l) - (1 - p)) /
        (if l = 0 then 1 else w / l))) ∧
    (calculate_kelly_position cfg symbol p w l price).recommended_fraction =
      min ((calculate_kelly_position cfg symbol p w l price).kelly_fraction *
        cfg.kelly_fraction) cfg.max_position_pct ∧
    (calculate_kelly_position cfg symbol p w l price).position_size_dollars =
      cfg.portfolio_value *
        (calculate_kelly_position cfg symbol p w l price).recommended_fraction ∧
    (calculate_kelly_position cfg symbol p w l price).position_size_shares =
      (if 0 < price then
        ⌊(calculate_kelly_position cfg symbol p w l price).position_size_dollars / price⌋
       else 0) ∧
    (calculate_kelly_position cfg symbol p w l price).edge = p * w - (1 - p) * l ∧
    (calculate_kelly_position {} "SPY" (3/5) (1/20) (3/100) 100).kelly_fraction = 9/25 ∧
    (calculate_kelly_position {} "SPY" (3/5) (1/20) (3/100) 100).recommended_fraction = 9/50 := by
  have hb : (0 : ℚ) ≤ (if l = 0 then 1 else w / l) := by
    split_ifs with h
    · norm_num
    · exact div_nonneg hw hl
  have hbeq : (if l > 0 then w / l else 1) = (if l = 0 then 1 else w / l) := kelly_b_eq w l hl
  have hfk : (calculate_kelly_position cfg symbol p w l price).kelly_fraction =
      max 0 (min 1 ((p * (if l = 0 then 1 else w / l) - (1 - p)) /
        (if l = 0 then 1 else w / l))) := by
    unfold calculate_kelly_position
    simp only [hbeq, kelly_fk_eq p _ hb]
  have hfk0 : 0 ≤ (calculate_kelly_position cfg symbol p w l price).kelly_fraction := by
    rw [hfk]; exact le_max_left 0 _
  have hrec : 0 ≤ (calculate_kelly_position cfg symbol p w l price).recommended_fraction := by
    show 0 ≤ min _ cfg.max_position_pct
    refine le_min (mul_nonneg ?_ hkf) hmax
    exact le_max_left 0 _
  have hdollars : 0 ≤ (calculate_kelly_position cfg symbol p w l price).position_size_dollars :=
    mul_nonneg hpv hrec
  refine ⟨?_, hfk, rfl, rfl, ?_, rfl, ?_, ?_⟩
  · unfold calculate_kelly_position
    simp only [hbeq]
  · show (if price > 0 then
        pyInt ((calculate_kelly_position cfg symbol p w l price).position_size_dollars / price)
      else 0) = _
    split_ifs with hpr
    · exact pyInt_nonneg_eq_floor _ (div_nonneg hdollars hpr.le)
    · rfl
  · norm_num [calculate_kelly_position]
  · norm_num [calculate_kelly_position]

/-- Witness for C4: the spec round-trip instance under the default
configuration. -/
theorem kelly_position_formula_witness :
    (calculate_kelly_position {} "SPY" (3/5) (1/20) (3/100) 100).kelly_fraction = 9/25 ∧
    (calculate_kelly_position {} "SPY" (3/5) (1/20) (3/100) 100).recommended_fraction = 9/50 :=
  ⟨(kelly_position_formula {} "SPY" (3/5) (1/20) (3/100) 100 (by norm_num) (by norm_num)
      (by norm_num) (by norm_num) (by norm_num) (by norm_num) (by norm_num)).2.2.2.2.2.2.1,
   (kelly_position_formula {} "SPY" (3/5) (1/20) (3/100) 100 (by norm_num) (by norm_num)
      (by norm_num) (by norm_num) (by norm_num) (by norm_num) (by norm_num)).2.2.2.2.2.2.2⟩

/-- C2 counterexample: a cached insight marked vetoed with a bullish
outlook and confidence 0.9 still produces two signals and two orders,
because `generate_trade_signals` never reads the vetoed flag. -/
theorem vetoed_insight_still_generates_orders :
    (let d : ExecData :=
      { aggregated_insight := some
          { overall_outlook := Outlook.bullish, confidence := 9/10,
            resolution_reasoning := "cached consensus", final_recommendations := [],
            vetoed := true },
        price := fun _ => none, daily_vol := fun _ => none, win_rate := fun _ => none };
     d.aggregated_insight.map AggCache.vetoed = some true ∧
     (generate_execution_orders (generate_trade_signals d) d {}).length = 2) := by
  refine ⟨rfl, ?_⟩
  norm_num [generate_trade_signals, generate_execution_orders]

/-- C2 (amended): a consensus confidence below the 0.6 actionability
threshold yields empty signal and order lists, a normal outcome; the
vetoed flag is not consulted by the sizer (veto enforcement lives in the
orchestrator, which skips the execution phase entirely). -/
theorem low_confidence_yields_no_orders (d : ExecData) (agg : AggCache) (cfg : ExecConfig)
    (hd : d.aggregated_insight = some agg) (hc : agg.confidence < 3/5) :
    generate_trade_signals d = [] ∧
    generate_execution_orders (generate_trade_signals d) d cfg = [] := by
  have h1 : generate_trade_signals d = [] := by
    unfold generate_trade_signals
    rw [hd]
    simp [hc]
  exact ⟨h1, by rw [h1]; rfl⟩

/-- Witness for C2 (amended): a vetoed bullish insight with confidence
0.5 yields no signals and no orders. -/
theorem low_confidence_yields_no_orders_witness :
    (let d : ExecData :=
      { aggregated_insight := some
          { overall_outlook := Outlook.bullish, confidence := 1/2,
            resolution_reasoning := "cached consensus", final_recommendations := [],
            vetoed := true },
        price := fun _ => none, daily_vol := fun _ => none, win_rate := fun _ => none };
     generate_trade_signals d = [] ∧
     generate_execution_orders (generate_trade_signals d) d {} = []) :=
  low_confidence_yields_no_orders _ _ {} rfl (by norm_num)

/-- C10: a neutral consensus outlook yields no signals and hence no
orders, whatever the confidence, even far above the 0.6 threshold. -/
theorem neutral_outlook_yields_no_orders (d : ExecData) (agg : AggCache) (cfg : ExecConfig)
    (hd : d.aggregated_insight = some agg) (hn : agg.overall_outlook = Outlook.neutral) :
    generate_trade_signals d = [] ∧
    generate_execution_orders (generate_trade_signals d) d cfg = [] := by
  have h1 : generate_trade_signals d = [] := by
    unfold generate_trade_signals
    rw [hd]
    by_cases hc : agg.confidence < 3/5
    · simp [hc]
    · simp [hc, hn]
  exact ⟨h1, by rw [h1]; rfl⟩

/-- Witness for C10: a neutral insight with confidence 0.9. -/
theorem neutral_outlook_yields_no_orders_witness :
    (let d : ExecData :=
      { aggregated_insight := some
          { overall_outlook := Outlook.neutral, confidence := 9/10,
            resolution_reasoning := "cached consensus", final_recommendations := [],
            vetoed := false },
        price := fun _ => none, daily_vol := fun _ => none, win_rate := fun _ => none };
     generate_trade_signals d = [] ∧
     generate_execution_orders (generate_trade_signals d) d {} = []) :=
  neutral_outlook_yields_no_orders _ _ {} rfl rfl

theorem roundHalfEven_bounds (lo hi : ℤ) (x : ℚ) (hlo : (lo : ℚ) ≤ x) (hhi : x ≤ (hi : ℚ)) :
    lo ≤ roundHalfEven x ∧ roundHalfEven x ≤ hi := by
  have hfl : lo ≤ ⌊x⌋ := Int.le_floor.mpr hlo
  have hfu : ⌊x⌋ ≤ hi := by
    have h := Int.floor_le_floor hhi
    simpa using h
  have hsucc : 1/2 < x - (⌊x⌋ : ℚ) ∨ x - (⌊x⌋ : ℚ) = 1/2 → ⌊x⌋ + 1 ≤ hi := by
    intro h
    have hxf : (⌊x⌋ : ℚ) < x := by
      rcases h with h | h
      · nlinarith
      · nlinarith
    have : (⌊x⌋ : ℚ) < (hi : ℚ) := lt_of_lt_of_le hxf hhi
    have : ⌊x⌋ < hi := by exact_mod_cast this
    omega
  simp only [roundHalfEven]
  split_ifs with h1 h2 h3
  · exact ⟨hfl, hfu⟩
  · exact ⟨by omega, hsucc (Or.inl h2)⟩
  · exact ⟨hfl, hfu⟩
  · have htie : x - (⌊x⌋ : ℚ) = 1/2 := le_antisymm (not_lt.mp h2) (not_lt.mp h1)
    exact ⟨by omega, hsucc (Or.inr htie)⟩

theorem roundDec3_bounds (y : ℚ) (h1 : 1/10 ≤ y) (h2 : y ≤ 2) :
    1/10 ≤ roundDec 3 y ∧ roundDec 3 y ≤ 2 := by
  have hx1 : ((100 : ℤ) : ℚ) ≤ y * 10 ^ 3 := by push_cast; nlinarith
  have hx2 : y * 10 ^ 3 ≤ ((2000 : ℤ) : ℚ) := by push_cast; nlinarith
  obtain ⟨hl, hu⟩ := roundHalfEven_bounds 100 2000 (y * 10 ^ 3) hx1 hx2
  unfold roundDec
  constructor
  · rw [le_div_iff (by norm_num : (0 : ℚ) < 10 ^ 3)]
    calc (1/10 : ℚ) * 10 ^ 3 = ((100 : ℤ) : ℚ) := by norm_num
    _ ≤ _ := by exact_mod_cast hl
  · rw [div_le_iff (by norm_num : (0 : ℚ) < 10 ^ 3)]
    calc ((roundHalfEven (y * 10 ^ 3)) : ℚ) ≤ ((2000 : ℤ) : ℚ) := by exact_mod_cast hu
    _ = 2 * 10 ^ 3 := by norm_num

/-- C7 counterexample: the code rounds the clamped weight to three
decimals, so the produced weight is not always equal to the clamp of the
multiplicative update: accuracy 0.51, Brier 0.5, sharpe 0 under the
default learning rate 0.1 gives clamp value 2501/2500 = 1.0004 but
produced weight 1. -/
theorem weight_rounding_breaks_exact_formula :
    newWeight (1/10) 1 { accuracy := 51/100, brier_score := 1/2, sharpe_contribution := 0 } = 1 ∧
    max (1/10) (min 2 (1 * (1 + weightAdjustment (1/10)
      { accuracy := 51/100, brier_score := 1/2, sharpe_contribution := 0 }))) = 2501/2500 ∧
    (1 : ℚ) ≠ 2501/2500 := by
  have hadj : weightAdjustment (1/10)
      { accuracy := 51/100, brier_score := 1/2, sharpe_contribution := 0 } = 1/2500 := by
    norm_num [weightAdjustment]
  have hclamp : max (1/10 : ℚ) (min 2 (1 * (1 + (1/2500 : ℚ)))) = 2501/2500 := by
    norm_num
  refine ⟨?_, by rw [hadj]; exact hclamp, by norm_num⟩
  unfold newWeight roundDec roundHalfEven
  rw [hadj, hclamp]
  have hfloor : ⌊(2501/2500 : ℚ) * 10 ^ 3⌋ = 1000 := by
    rw [show ((2501 : ℚ)/2500) * 10 ^ 3 = 5002/5 by norm_num]
    rw [Int.floor_eq_iff]
    norm_num
  rw [hfloor]
  norm_num

/-- C7 (amended): the new weight is the clamp of
current × (1 + adjustment) to the interval from 0.1 to 2.0, rounded to
three decimals; every produced weight lies in that interval, enforced by
clamping for every input. -/
theorem weight_adjustment_clamped (rate current : ℚ) (stats : AgentStats) :
    newWeight rate current stats =
      roundDec 3 (max (1/10) (min 2 (current * (1 + weightAdjustment rate stats)))) ∧
    1/10 ≤ newWeight rate current stats ∧ newWeight rate current stats ≤ 2 := by
  refine ⟨rfl, ?_, ?_⟩
  · exact (roundDec3_bounds (max (1/10) (min 2 (current * (1 + weightAdjustment rate stats))))
      (le_max_left _ _) (max_le (by norm_num) (min_le_left _ _))).1
  · exact (roundDec3_bounds (max (1/10) (min 2 (current * (1 + weightAdjustment rate stats))))
      (le_max_left _ _) (max_le (by norm_num) (min_le_left _ _))).2

/-- C8: outcome attribution produces no record when the cumulative
forward return is zero; otherwise correctness is exactly direction
agreement (with the 0.02 neutral band) and the attribution score is
confidence × |actual return| × 100, negated when wrong. -/
theorem outcome_attribution_rule (outlook : Outlook) (confidence : ℚ) (rets : List ℚ) :
    (rets.foldl (· + ·) 0 = 0 → attributeOutcome outlook confidence rets = none) ∧
    (rets.foldl (· + ·) 0 ≠ 0 →
      ∃ o, attributeOutcome outlook confidence rets = some o ∧
        (o.was_correct = true ↔
          ((outlook = Outlook.bullish ∧ 0 < rets.foldl (· + ·) 0) ∨
           (outlook = Outlook.bearish ∧ rets.foldl (· + ·) 0 < 0) ∨
           (outlook = Outlook.neutral ∧ |rets.foldl (· + ·) 0| < 1/50))) ∧
        (o.was_correct = true →
          o.attribution_score = confidence * |rets.foldl (· + ·) 0| * 100) ∧
        (o.was_correct = false →
          o.attribution_score = -(confidence * |rets.foldl (· + ·) 0| * 100))) := by
  constructor
  · intro h
    simp [attributeOutcome, h]
  · intro h
    unfold attributeOutcome
    rw [if_pos h]
    refine ⟨_, rfl, ?_, ?_, ?_⟩
    · simp only [Bool.or_eq_true, decide_eq_true_eq, gt_iff_lt]
      exact or_assoc
    · intro hw
      simp only at hw
      simp only [hw, if_true]
    · intro hw
      simp only at hw
      simp only [hw, Bool.false_eq_true, if_false]

/-- Witness for C8: a bullish forecast of confidence 0.7 over two forward
daily returns of 0.01 each is correct with attribution score 1.4. -/
theorem outcome_attribution_rule_witness :
    ∃ o, attributeOutcome Outlook.bullish (7/10) [1/100, 1/100] = some o ∧
      (o.was_correct = true ↔
        ((Outlook.bullish = Outlook.bullish ∧
            0 < [(1 : ℚ)/100, 1/100].foldl (· + ·) 0) ∨
         (Outlook.bullish = Outlook.bearish ∧
            [(1 : ℚ)/100, 1/100].foldl (· + ·) 0 < 0) ∨
         (Outlook.bullish = Outlook.neutral ∧
            |[(1 : ℚ)/100, 1/100].foldl (· + ·) 0| < 1/50))) ∧
      (o.was_correct = true →
        o.attribution_score = (7/10) * |[(1 : ℚ)/100, 1/100].foldl (· + ·) 0| * 100) ∧
      (o.was_correct = false →
        o.attribution_score = -((7/10) * |[(1 : ℚ)/100, 1/100].foldl (· + ·) 0| * 100)) :=
  (outcome_attribution_rule Outlook.bullish (7/10) [1/100, 1/100]).2
    (by norm_num [List.foldl])

end Equities
